import Mathlib

/-!
Camera selection and capture lifecycle of `main` in rtabmap-calibration.

Shallow embedding of `tools/Calibration/main.cpp`.

The program is a single `main` that parses its arguments, resolves one camera
backend from the numeric `--driver` value, initialises it, wraps it in a
`CameraThread`, and runs the thread around the Qt event loop.

Modelling choices:

* `main` is a function from the process environment (`Env`) and the argument
  vector `argv[1..argc)` to a run `Res Int`: the list of externally visible
  actions in program order, together with either a return value or the way the
  process terminated.
* Calls into libraries (`atoi`, the `available()` predicates, `init()`,
  `UFATAL`) are not part of the file; their results are fields of `Env`, so
  every theorem holds for every behaviour of these calls.
* `exit` never returns: it ends the run with `Outcome.exit code`.
* Pointers are `Option` values; dereferencing a null `cameraThread` ends the
  run with `Outcome.nullDeref`.
-/

namespace Calibration

/-! ## Data model -/

/-- Backends reachable through the `rtabmap::Camera *cameraUsb` pointer. -/
inductive Camera where
  | CameraVideo (usbDevice : Int)
  deriving DecidableEq

/-- Backends reachable through the `rtabmap::CameraRGBD *camera` pointer,
with their constructor arguments. -/
inductive CameraRGBD where
  | CameraOpenni
  | CameraOpenNI2
  | CameraFreenect
  | CameraOpenNICV (asus : Bool)
  | CameraFreenect2
  | CameraStereoDC1394
  deriving DecidableEq

/-- Classes whose static `available()` predicate is consulted by `main`. -/
inductive AvailClass where
  | CameraOpenNI2
  | CameraFreenect
  | CameraOpenNICV
  | CameraFreenect2
  | CameraStereoDC1394
  deriving DecidableEq

/-- The two `rtabmap::CameraThread` constructors used by `main`. -/
inductive CameraThread where
  | ofCamera (c : Camera)
  | ofCameraRGBD (c : CameraRGBD)
  deriving DecidableEq

/-- Externally visible actions of `main`, one constructor per kind of
statement of the source. -/
inductive Event where
  | setLoggerType
  | setLoggerLevel (debug : Bool)
  | printf (text : String)
  | uinfo (text : String)
  | uerror (text : String)
  | ufatal (text : String)
  | available (cls : AvailClass) (result : Bool)
  | newCamera (c : Camera)
  | newCameraRGBD (c : CameraRGBD)
  | initCamera (c : Camera) (ok : Bool)
  | initCameraRGBD (c : CameraRGBD) (ok : Bool)
  | deleteCamera (c : Camera)
  | deleteCameraRGBD (c : CameraRGBD)
  | newCameraThread (t : CameraThread)
  | newQApplication
  | newCalibrationDialog (stereo : Bool)
  | registerToEventsManager
  | dialogShow
  | threadStart (t : CameraThread)
  | appExec
  | threadJoin (t : CameraThread) (force : Bool)
  | deleteCameraThread (t : CameraThread)
  deriving DecidableEq

/-- How a run ends when it does not reach the end of `main`. -/
inductive Outcome where
  | exit (code : Int)
  | fatal
  | nullDeref
  deriving DecidableEq

/-- A run of a program fragment: either control continues with a value
(`cont`), or the process has terminated (`halt`). Both carry the actions
performed so far, in order. -/
inductive Res (α : Type) where
  | cont (trace : List Event) (value : α)
  | halt (trace : List Event) (outcome : Outcome)
  deriving DecidableEq

/-- Actions performed by a run. -/
def Res.trace {α : Type} : Res α → List Event
  | .cont t _ => t
  | .halt t _ => t

/-- The run `r` preceded by the actions `t`. -/
def Res.prepend {α : Type} (t : List Event) : Res α → Res α
  | .cont t' a => .cont (t ++ t') a
  | .halt t' o => .halt (t ++ t') o

/-- Sequencing: the second fragment runs only if the first one continues. -/
def Res.bind {α β : Type} : Res α → (α → Res β) → Res β
  | .cont t a, f => (f a).prepend t
  | .halt t o, _ => .halt t o

/-- The way the process terminated, if the run did not continue. -/
def Res.outcome? {α : Type} : Res α → Option Outcome
  | .cont _ _ => none
  | .halt _ o => some o

instance : Monad Res where
  pure a := .cont [] a
  bind := Res.bind

/-- Perform one action. -/
def emit (e : Event) : Res Unit := .cont [e] ()

/-- C library `exit(code)`: the process terminates. -/
def exit {α : Type} (code : Int) : Res α := .halt [] (.exit code)

/-- Results of the library calls made by `main`. -/
structure Env where
  /-- Value of `std::atoi` on an argument token. -/
  atoi : String → Int
  /-- The static `available()` predicate of each optional backend class. -/
  available : AvailClass → Bool
  /-- Result of `cameraUsb->init()`. -/
  initCamera : Camera → Bool
  /-- Result of `camera->init()`. -/
  initCameraRGBD : CameraRGBD → Bool
  /-- Tells whether the `UFATAL` logging macro returns to its caller. -/
  ufatalReturns : Bool

/-- The local variables `driver`, `device`, `stereo` of `main`. -/
structure Config where
  driver : Int
  device : Int
  stereo : Bool
  deriving DecidableEq

/-! ## The program -/

/-- Text printed by `showUsage`. -/
def usageText : String :=
  "\nUsage:\n" ++
  "rtabmap-calibration [options]\n" ++
  "Options:\n" ++
  "  --driver #     Driver number to use:-1=USB camera\n" ++
  "                                       0=OpenNI-PCL (Kinect)\n" ++
  "                                       1=OpenNI2    (Kinect and Xtion PRO Live)\n" ++
  "                                       2=Freenect   (Kinect)\n" ++
  "                                       3=OpenNI-CV  (Kinect)\n" ++
  "                                       4=OpenNI-CV-ASUS (Xtion PRO Live)\n" ++
  "                                       5=Freenect2  (Kinect v2)\n" ++
  "                                       6=DC1394     (Bumblebee2)\n" ++
  "  --device #     Device id\n" ++
  "  --debug        Debug log\n" ++
  "  --stereo       Stereo\n\n"

/-- The function `showUsage`: print the usage text, then `exit(1)`. -/
def showUsage {α : Type} : Res α := do
  emit (.printf usageText)
  exit 1

/-- The argument loop `for(int i=1; i<argc; ++i)` of `main`. The list is
`argv[i..argc)`, the tokens not yet consumed; the `Config` holds the current
values of `driver`, `device` and `stereo`. -/
def argLoop (env : Env) : List String → Config → Res Config
  | [], cfg => pure cfg
  | arg :: rest, cfg =>
    if arg = "--driver" then
      match rest with
      | v :: rest' =>
        let driver := env.atoi v
        if driver < -1 then showUsage
        else argLoop env rest' { cfg with driver := driver }
      | [] => showUsage
    else if arg = "--device" then
      match rest with
      | v :: rest' =>
        let device := env.atoi v
        if device < 0 then showUsage
        else argLoop env rest' { cfg with device := device }
      | [] => showUsage
    else if arg = "--debug" then do
      emit (.setLoggerLevel true)
      argLoop env rest cfg
    else if arg = "--stereo" then
      argLoop env rest { cfg with stereo := true }
    else if arg = "--help" then
      showUsage
    else do
      emit (.printf ("Unrecognized option : " ++ arg ++ "\n"))
      showUsage

/-- The range check that follows the argument loop. -/
def rangeCheck (driver : Int) : Res Unit :=
  if driver < -1 ∨ driver > 6 then do
    emit (.uerror "driver should be between -1 and 6.")
    showUsage
  else pure ()

/-- Check `cls::available()`; when it is false, log `msg` and `exit(-1)`. -/
def requireAvailable (env : Env) (cls : AvailClass) (msg : String) : Res Unit := do
  emit (.available cls (env.available cls))
  if !env.available cls then do
    emit (.uerror msg)
    exit (-1)
  else pure ()

/-- Construct `new rtabmap::...` through the `camera` pointer. -/
def newRGBD (c : CameraRGBD) : Res (Option Camera × Option CameraRGBD) := do
  emit (.newCameraRGBD c)
  pure (none, some c)

/-- The `if / else if` chain of `main` that selects the backend. The result is
the pair of pointers `(cameraUsb, camera)`, both initially null. -/
def resolve (env : Env) (driver device : Int) :
    Res (Option Camera × Option CameraRGBD) :=
  if driver = -1 then do
    emit (.newCamera (.CameraVideo device))
    pure (some (.CameraVideo device), none)
  else if driver = 0 then
    newRGBD .CameraOpenni
  else if driver = 1 then do
    requireAvailable env .CameraOpenNI2 "Not built with OpenNI2 support..."
    newRGBD .CameraOpenNI2
  else if driver = 2 then do
    requireAvailable env .CameraFreenect "Not built with Freenect support..."
    newRGBD .CameraFreenect
  else if driver = 3 then do
    requireAvailable env .CameraOpenNICV "Not built with OpenNI from OpenCV support..."
    newRGBD (.CameraOpenNICV false)
  else if driver = 4 then do
    requireAvailable env .CameraOpenNICV "Not built with OpenNI from OpenCV support..."
    newRGBD (.CameraOpenNICV true)
  else if driver = 5 then do
    requireAvailable env .CameraFreenect2 "Not built with Freenect2 support..."
    newRGBD .CameraFreenect2
  else if driver = 6 then do
    requireAvailable env .CameraStereoDC1394 "Not built with DC1394 support..."
    newRGBD .CameraStereoDC1394
  else do
    emit (.ufatal "")
    if env.ufatalReturns then pure (none, none) else .halt [] .fatal

/-- Initialisation of the selected backend and its wrapping in a
`CameraThread`. The result is the pointer `cameraThread`, initially null. -/
def initAndWrap (env : Env) :
    Option Camera × Option CameraRGBD → Res (Option CameraThread)
  | (some cameraUsb, _) => do
    emit (.initCamera cameraUsb (env.initCamera cameraUsb))
    if !env.initCamera cameraUsb then do
      emit (.printf "Camera init failed!\n")
      emit (.deleteCamera cameraUsb)
      exit 1
    else do
      emit (.newCameraThread (.ofCamera cameraUsb))
      pure (some (.ofCamera cameraUsb))
  | (none, some camera) => do
    emit (.initCameraRGBD camera (env.initCameraRGBD camera))
    if !env.initCameraRGBD camera then do
      emit (.printf "Camera init failed!\n")
      emit (.deleteCameraRGBD camera)
      exit 1
    else do
      emit (.newCameraThread (.ofCameraRGBD camera))
      pure (some (.ofCameraRGBD camera))
  | (none, none) => pure none

/-- A member call `cameraThread->...`: the action `act` on the thread the
pointer designates, or a null dereference. -/
def deref (cameraThread : Option CameraThread) (act : CameraThread → Event) :
    Res Unit :=
  match cameraThread with
  | some t => emit (act t)
  | none => .halt [] .nullDeref

/-- The last part of `main`: the dialog, the thread and the event loop. -/
def runDialog (stereo : Bool) (cameraThread : Option CameraThread) : Res Int := do
  emit .newQApplication
  emit (.newCalibrationDialog stereo)
  emit .registerToEventsManager
  emit .dialogShow
  deref cameraThread .threadStart
  emit .appExec
  deref cameraThread (fun t => .threadJoin t true)
  match cameraThread with
  | some t => emit (.deleteCameraThread t)
  | none => pure ()
  pure 0

/-- The function `main`, on the arguments `argv[1..argc)`. -/
def main (env : Env) (args : List String) : Res Int := do
  emit .setLoggerType
  emit (.setLoggerLevel false)
  let cfg ← argLoop env args { driver := -1, device := 0, stereo := false }
  rangeCheck cfg.driver
  emit (.uinfo ("Using driver " ++ toString cfg.driver))
  emit (.uinfo ("Using device " ++ toString cfg.device))
  emit (.uinfo ("Stereo: " ++ (if cfg.stereo then "true" else "false")))
  let ptrs ← resolve env cfg.driver cfg.device
  let cameraThread ← initAndWrap env ptrs
  runDialog cfg.stereo cameraThread

/-! ## A concrete environment -/

/-- C `isspace` in the "C" locale. -/
def isSpace (c : Char) : Bool :=
  c = ' ' || (9 ≤ c.toNat && c.toNat ≤ 13)

/-- Value of the longest prefix of decimal digits, accumulated from `acc`. -/
def digitsValue : List Char → Nat → Nat
  | [], acc => acc
  | c :: cs, acc =>
    if 48 ≤ c.toNat ∧ c.toNat ≤ 57 then digitsValue cs (acc * 10 + (c.toNat - 48))
    else acc

/-- The C library function `atoi` on values that fit an `int`: leading white
space is skipped, one optional sign is read, then the longest run of decimal
digits; anything after it is ignored and no digits gives 0. -/
def atoi (s : String) : Int :=
  match s.toList.dropWhile isSpace with
  | '-' :: cs => -((digitsValue cs 0 : Nat) : Int)
  | '+' :: cs => ((digitsValue cs 0 : Nat) : Int)
  | cs => ((digitsValue cs 0 : Nat) : Int)

/-- A build with every optional backend, where every `init()` succeeds. -/
def fullEnv : Env where
  atoi := atoi
  available := fun _ => true
  initCamera := fun _ => true
  initCameraRGBD := fun _ => true
  ufatalReturns := false

/-- A build without any optional backend, with the same devices. -/
def bareEnv : Env where
  atoi := atoi
  available := fun _ => false
  initCamera := fun _ => true
  initCameraRGBD := fun _ => true
  ufatalReturns := false

/-- A build with every optional backend but no device attached: every
`init()` fails. -/
def noDeviceEnv : Env where
  atoi := atoi
  available := fun _ => true
  initCamera := fun _ => false
  initCameraRGBD := fun _ => false
  ufatalReturns := false

/-! ## Vocabulary of the specification -/

/-- An availability predicate is consulted. -/
def Event.isAvailability : Event → Bool
  | .available _ _ => true
  | _ => false

/-- A camera backend is constructed. -/
def Event.isConstruct : Event → Bool
  | .newCamera _ => true
  | .newCameraRGBD _ => true
  | _ => false

/-- A call of `init()` on a backend. -/
def Event.isInit : Event → Bool
  | .initCamera _ _ => true
  | .initCameraRGBD _ _ => true
  | _ => false

/-- A `CameraThread` is created, started, joined or deleted. -/
def Event.isThread : Event → Bool
  | .newCameraThread _ => true
  | .threadStart _ => true
  | .threadJoin _ _ => true
  | .deleteCameraThread _ => true
  | _ => false

/-- Any action on a camera backend or on a camera thread, the availability
predicates included. -/
def Event.touchesCamera : Event → Bool
  | .available _ _ => true
  | .newCamera _ => true
  | .newCameraRGBD _ => true
  | .initCamera _ _ => true
  | .initCameraRGBD _ _ => true
  | .deleteCamera _ => true
  | .deleteCameraRGBD _ => true
  | .newCameraThread _ => true
  | .threadStart _ => true
  | .threadJoin _ _ => true
  | .deleteCameraThread _ => true
  | _ => false

/-- The lifecycle actions of the capture phase: `init()`, construction of the
thread, `start()`, the event loop, `join` and deletion of the thread. -/
def Event.isLifecycle : Event → Bool
  | .initCamera _ _ => true
  | .initCameraRGBD _ _ => true
  | .newCameraThread _ => true
  | .threadStart _ => true
  | .appExec => true
  | .threadJoin _ _ => true
  | .deleteCameraThread _ => true
  | _ => false

/-- A backend of either pointer type. -/
inductive Backend where
  | usb (c : Camera)
  | rgbd (c : CameraRGBD)
  deriving DecidableEq

/-- The backend an action constructs, if it constructs one. -/
def Event.constructed : Event → Option Backend
  | .newCamera c => some (.usb c)
  | .newCameraRGBD c => some (.rgbd c)
  | _ => none

/-- The action constructing backend `b`. -/
def Backend.newEvent : Backend → Event
  | .usb c => .newCamera c
  | .rgbd c => .newCameraRGBD c

/-- The action `b->init()` with result `ok`. -/
def Backend.initEvent : Backend → Bool → Event
  | .usb c, ok => .initCamera c ok
  | .rgbd c, ok => .initCameraRGBD c ok

/-- The action `delete b`. -/
def Backend.deleteEvent : Backend → Event
  | .usb c => .deleteCamera c
  | .rgbd c => .deleteCameraRGBD c

/-- The `CameraThread` wrapping backend `b`. -/
def Backend.thread : Backend → CameraThread
  | .usb c => .ofCamera c
  | .rgbd c => .ofCameraRGBD c

/-- Result of `init()` on backend `b` in environment `env`. -/
def Env.init (env : Env) : Backend → Bool
  | .usb c => env.initCamera c
  | .rgbd c => env.initCameraRGBD c

/-- The driver table of the usage text, read as the backend each driver number
stands for: -1 USB camera (on the given device), 0 OpenNI-PCL, 1 OpenNI2,
2 Freenect, 3 OpenNI-CV (Kinect), 4 OpenNI-CV-ASUS, 5 Freenect2, 6 DC1394. -/
def documentedBackend (driver device : Int) : Option Backend :=
  match driver with
  | -1 => some (.usb (.CameraVideo device))
  | 0 => some (.rgbd .CameraOpenni)
  | 1 => some (.rgbd .CameraOpenNI2)
  | 2 => some (.rgbd .CameraFreenect)
  | 3 => some (.rgbd (.CameraOpenNICV false))
  | 4 => some (.rgbd (.CameraOpenNICV true))
  | 5 => some (.rgbd .CameraFreenect2)
  | 6 => some (.rgbd .CameraStereoDC1394)
  | _ => none

/-- The class whose availability predicate guards a driver number:
`CameraOpenNI2` for 1, `CameraFreenect` for 2, `CameraOpenNICV` for 3 and 4,
`CameraFreenect2` for 5, `CameraStereoDC1394` for 6, none otherwise. -/
def availabilityClass (driver : Int) : Option AvailClass :=
  match driver with
  | 1 => some .CameraOpenNI2
  | 2 => some .CameraFreenect
  | 3 => some .CameraOpenNICV
  | 4 => some .CameraOpenNICV
  | 5 => some .CameraFreenect2
  | 6 => some .CameraStereoDC1394
  | _ => none

/-- The values of the local variables before the argument loop. -/
def Config.initial : Config := { driver := -1, device := 0, stereo := false }

/-- An argument list contains an invalid argument in option position: a token
that is none of the five options, a `--driver` or `--device` that is the last
token, or a `--device` whose value is negative. Option positions are those
reached by skipping each option together with its value. -/
def hasInvalidArg (atoi : String → Int) : List String → Bool
  | [] => false
  | arg :: rest =>
    if arg = "--driver" then
      match rest with
      | [] => true
      | _ :: rest' => hasInvalidArg atoi rest'
    else if arg = "--device" then
      match rest with
      | [] => true
      | v :: rest' => decide (atoi v < 0) || hasInvalidArg atoi rest'
    else if arg = "--debug" ∨ arg = "--stereo" ∨ arg = "--help" then
      hasInvalidArg atoi rest
    else true

/-- The values carried by the `--driver` options of an argument list, in
order. Option positions are those reached by skipping each option together
with its value. -/
def driverValues (atoi : String → Int) : List String → List Int
  | [] => []
  | arg :: rest =>
    if arg = "--driver" then
      match rest with
      | [] => []
      | v :: rest' => atoi v :: driverValues atoi rest'
    else if arg = "--device" then
      match rest with
      | [] => []
      | _ :: rest' => driverValues atoi rest'
    else driverValues atoi rest

/-- A well-formed command-line option. -/
inductive Opt where
  | driver (value : String)
  | device (value : String)
  | debug
  | stereo
  deriving DecidableEq

/-- The tokens an option is written with. -/
def Opt.tokens : Opt → List String
  | .driver v => ["--driver", v]
  | .device v => ["--device", v]
  | .debug => ["--debug"]
  | .stereo => ["--stereo"]

/-- The argument list written for a list of options. -/
def Opt.render : List Opt → List String
  | [] => []
  | o :: os => o.tokens ++ Opt.render os

/-- Well-formedness: a driver value is at least -1, a device value at least 0. -/
def Opt.wellFormed (atoi : String → Int) : Opt → Bool
  | .driver v => decide (-1 ≤ atoi v)
  | .device v => decide (0 ≤ atoi v)
  | .debug => true
  | .stereo => true

/-- Value of the last `--driver` option, or `dflt` if there is none. -/
def Opt.lastDriver (atoi : String → Int) (dflt : Int) : List Opt → Int
  | [] => dflt
  | .driver v :: os => Opt.lastDriver atoi (atoi v) os
  | _ :: os => Opt.lastDriver atoi dflt os

/-- Value of the last `--device` option, or `dflt` if there is none. -/
def Opt.lastDevice (atoi : String → Int) (dflt : Int) : List Opt → Int
  | [] => dflt
  | .device v :: os => Opt.lastDevice atoi (atoi v) os
  | _ :: os => Opt.lastDevice atoi dflt os

/-- The logger actions of the `--debug` options, one for each. -/
def Opt.debugTrace : List Opt → List Event
  | [] => []
  | .debug :: os => Event.setLoggerLevel true :: Opt.debugTrace os
  | _ :: os => Opt.debugTrace os

/-- The actions of `main` before the argument loop. -/
def preamble : List Event := [.setLoggerType, .setLoggerLevel false]

/-- The three `UINFO` lines printed after the range check. -/
def infoLines (cfg : Config) : List Event :=
  [.uinfo ("Using driver " ++ toString cfg.driver),
   .uinfo ("Using device " ++ toString cfg.device),
   .uinfo ("Stereo: " ++ (if cfg.stereo then "true" else "false"))]

/-- The availability action of a driver number, if it has one. -/
def availTrace (env : Env) (driver : Int) : List Event :=
  match availabilityClass driver with
  | some cls => [.available cls (env.available cls)]
  | none => []

/-- The availability check of a driver number passes or is absent. -/
def availabilityPasses (env : Env) (driver : Int) : Bool :=
  match availabilityClass driver with
  | some cls => env.available cls
  | none => true

/-- The actions of the dialog and of the capture phase around thread `t`. -/
def captureTrace (stereo : Bool) (t : CameraThread) : List Event :=
  [.newQApplication, .newCalibrationDialog stereo, .registerToEventsManager,
   .dialogShow, .threadStart t, .appExec, .threadJoin t true,
   .deleteCameraThread t]

/-- The part of `main` that follows the argument loop. -/
def afterArgs (env : Env) (cfg : Config) : Res Int := do
  rangeCheck cfg.driver
  emit (.uinfo ("Using driver " ++ toString cfg.driver))
  emit (.uinfo ("Using device " ++ toString cfg.device))
  emit (.uinfo ("Stereo: " ++ (if cfg.stereo then "true" else "false")))
  let ptrs ← resolve env cfg.driver cfg.device
  let cameraThread ← initAndWrap env ptrs
  runDialog cfg.stereo cameraThread

/-- Console actions: logger configuration and `printf`. -/
def Event.isConsole : Event → Bool
  | .setLoggerLevel _ => true
  | .printf _ => true
  | _ => false

/-- Logging actions: logger configuration, `printf` and the logging macros
below the fatal level. -/
def Event.isLog : Event → Bool
  | .setLoggerType => true
  | .setLoggerLevel _ => true
  | .printf _ => true
  | .uinfo _ => true
  | .uerror _ => true
  | _ => false

/-- The `UFATAL` action. -/
def Event.isFatal : Event → Bool
  | .ufatal _ => true
  | _ => false

/-- The actions of the capture phase: creation of the thread, `start()`, the
event loop, `join` and deletion of the thread. -/
def Event.isCapture : Event → Bool
  | .newCameraThread _ => true
  | .threadStart _ => true
  | .appExec => true
  | .threadJoin _ _ => true
  | .deleteCameraThread _ => true
  | _ => false

/-! ## The run monad -/

@[simp] theorem pure_eq_cont {α : Type} (a : α) : (pure a : Res α) = Res.cont [] a := rfl

@[simp] theorem bind_eq_bind {α β : Type} (x : Res α) (f : α → Res β) :
    x >>= f = x.bind f := rfl

@[simp] theorem prepend_cont {α : Type} (t t' : List Event) (a : α) :
    (Res.cont t' a).prepend t = Res.cont (t ++ t') a := rfl

@[simp] theorem prepend_halt {α : Type} (t t' : List Event) (o : Outcome) :
    (Res.halt t' o : Res α).prepend t = Res.halt (t ++ t') o := rfl

@[simp] theorem bind_cont {α β : Type} (t : List Event) (a : α) (f : α → Res β) :
    (Res.cont t a).bind f = (f a).prepend t := rfl

@[simp] theorem bind_halt {α β : Type} (t : List Event) (o : Outcome) (f : α → Res β) :
    (Res.halt t o : Res α).bind f = Res.halt t o := rfl

@[simp] theorem trace_cont {α : Type} (t : List Event) (a : α) :
    (Res.cont t a).trace = t := rfl

@[simp] theorem trace_halt {α : Type} (t : List Event) (o : Outcome) :
    (Res.halt t o : Res α).trace = t := rfl

@[simp] theorem trace_prepend {α : Type} (t : List Event) (r : Res α) :
    (r.prepend t).trace = t ++ r.trace := by
  cases r <;> rfl

@[simp] theorem prepend_prepend {α : Type} (t t' : List Event) (r : Res α) :
    (r.prepend t').prepend t = r.prepend (t ++ t') := by
  cases r <;> simp

@[simp] theorem emit_eq (e : Event) : emit e = Res.cont [e] () := rfl

@[simp] theorem exit_eq {α : Type} (code : Int) :
    (exit code : Res α) = Res.halt [] (.exit code) := rfl

@[simp] theorem showUsage_eq {α : Type} :
    (showUsage : Res α) = Res.halt [.printf usageText] (.exit 1) := rfl

theorem main_eq (env : Env) (args : List String) :
    main env args =
      (((argLoop env args Config.initial).bind (afterArgs env)).prepend preamble) := by
  simp only [main, preamble, Config.initial, bind_eq_bind, emit_eq, bind_cont,
    prepend_prepend, List.singleton_append, List.cons_append, List.nil_append]
  congr 2
  funext cfg
  simp only [afterArgs, bind_eq_bind, emit_eq, bind_cont, prepend_prepend,
    List.singleton_append, List.cons_append, List.nil_append]


/-! ## The argument loop -/

@[simp] theorem argLoop_nil (env : Env) (cfg : Config) :
    argLoop env [] cfg = .cont [] cfg := by
  simp [argLoop]

@[simp] theorem argLoop_driver_last (env : Env) (cfg : Config) :
    argLoop env ["--driver"] cfg = .halt [.printf usageText] (.exit 1) := by
  simp [argLoop]

theorem argLoop_driver_low (env : Env) (v : String) (rest : List String) (cfg : Config)
    (h : env.atoi v < -1) :
    argLoop env ("--driver" :: v :: rest) cfg = .halt [.printf usageText] (.exit 1) := by
  simp [argLoop, h]

theorem argLoop_driver_ok (env : Env) (v : String) (rest : List String) (cfg : Config)
    (h : -1 ≤ env.atoi v) :
    argLoop env ("--driver" :: v :: rest) cfg =
      argLoop env rest { cfg with driver := env.atoi v } := by
  simp [argLoop, not_lt.mpr h]

@[simp] theorem argLoop_device_last (env : Env) (cfg : Config) :
    argLoop env ["--device"] cfg = .halt [.printf usageText] (.exit 1) := by
  simp [argLoop]

theorem argLoop_device_low (env : Env) (v : String) (rest : List String) (cfg : Config)
    (h : env.atoi v < 0) :
    argLoop env ("--device" :: v :: rest) cfg = .halt [.printf usageText] (.exit 1) := by
  simp [argLoop, h]

theorem argLoop_device_ok (env : Env) (v : String) (rest : List String) (cfg : Config)
    (h : 0 ≤ env.atoi v) :
    argLoop env ("--device" :: v :: rest) cfg =
      argLoop env rest { cfg with device := env.atoi v } := by
  simp [argLoop, not_lt.mpr h]

@[simp] theorem argLoop_debug (env : Env) (rest : List String) (cfg : Config) :
    argLoop env ("--debug" :: rest) cfg =
      (argLoop env rest cfg).prepend [.setLoggerLevel true] := by
  rw [argLoop.eq_def]
  simp

@[simp] theorem argLoop_stereo (env : Env) (rest : List String) (cfg : Config) :
    argLoop env ("--stereo" :: rest) cfg = argLoop env rest { cfg with stereo := true } := by
  rw [argLoop.eq_def]
  simp

@[simp] theorem argLoop_help (env : Env) (rest : List String) (cfg : Config) :
    argLoop env ("--help" :: rest) cfg = .halt [.printf usageText] (.exit 1) := by
  rw [argLoop.eq_def]
  simp

theorem argLoop_unknown (env : Env) (arg : String) (rest : List String) (cfg : Config)
    (h1 : ¬arg = "--driver") (h2 : ¬arg = "--device") (h3 : ¬arg = "--debug")
    (h4 : ¬arg = "--stereo") (h5 : ¬arg = "--help") :
    argLoop env (arg :: rest) cfg =
      .halt [.printf ("Unrecognized option : " ++ arg ++ "\n"), .printf usageText]
        (.exit 1) := by
  rw [argLoop.eq_def]
  simp [h1, h2, h3, h4, h5]

theorem argLoop_console (env : Env) (args : List String) (cfg : Config) :
    ∀ e ∈ (argLoop env args cfg).trace, e.isConsole = true := by
  induction args, cfg using argLoop.induct env <;>
    simp_all +zetaDelta [argLoop_driver_low, argLoop_driver_ok, argLoop_device_low,
      argLoop_device_ok, argLoop_unknown, Event.isConsole]


theorem argLoop_halt (env : Env) (args : List String) (cfg : Config)
    (tr : List Event) (o : Outcome) (h : argLoop env args cfg = .halt tr o) :
    o = .exit 1 ∧ Event.printf usageText ∈ tr := by
  induction args, cfg using argLoop.induct env generalizing tr with
  | case8 rest cfg _ _ ih =>
    rw [argLoop_debug] at h
    cases hr : argLoop env rest cfg with
    | cont t c => simp [hr] at h
    | halt t o' =>
      simp only [hr, prepend_halt, Res.halt.injEq] at h
      obtain ⟨rfl, rfl⟩ := h
      have := ih t hr
      simp [this]
  | _ =>
    simp_all +zetaDelta [argLoop_driver_low, argLoop_driver_ok, argLoop_device_low,
      argLoop_device_ok, argLoop_unknown] <;> aesop

@[simp] theorem hasInvalidArg_nil (atoi : String → Int) :
    hasInvalidArg atoi [] = false := by
  simp [hasInvalidArg]

@[simp] theorem hasInvalidArg_driver_last (atoi : String → Int) :
    hasInvalidArg atoi ["--driver"] = true := by
  simp [hasInvalidArg]

@[simp] theorem hasInvalidArg_driver (atoi : String → Int) (v : String) (rest : List String) :
    hasInvalidArg atoi ("--driver" :: v :: rest) = hasInvalidArg atoi rest := by
  simp [hasInvalidArg]

@[simp] theorem hasInvalidArg_device_last (atoi : String → Int) :
    hasInvalidArg atoi ["--device"] = true := by
  simp [hasInvalidArg]

@[simp] theorem hasInvalidArg_device (atoi : String → Int) (v : String) (rest : List String) :
    hasInvalidArg atoi ("--device" :: v :: rest) =
      (decide (atoi v < 0) || hasInvalidArg atoi rest) := by
  simp [hasInvalidArg]

@[simp] theorem hasInvalidArg_debug (atoi : String → Int) (rest : List String) :
    hasInvalidArg atoi ("--debug" :: rest) = hasInvalidArg atoi rest := by
  rw [hasInvalidArg.eq_def]
  simp

@[simp] theorem hasInvalidArg_stereo (atoi : String → Int) (rest : List String) :
    hasInvalidArg atoi ("--stereo" :: rest) = hasInvalidArg atoi rest := by
  rw [hasInvalidArg.eq_def]
  simp

@[simp] theorem hasInvalidArg_help (atoi : String → Int) (rest : List String) :
    hasInvalidArg atoi ("--help" :: rest) = hasInvalidArg atoi rest := by
  rw [hasInvalidArg.eq_def]
  simp

@[simp] theorem driverValues_nil (atoi : String → Int) : driverValues atoi [] = [] := by
  simp [driverValues]

@[simp] theorem driverValues_driver_last (atoi : String → Int) :
    driverValues atoi ["--driver"] = [] := by
  simp [driverValues]

@[simp] theorem driverValues_driver (atoi : String → Int) (v : String) (rest : List String) :
    driverValues atoi ("--driver" :: v :: rest) = atoi v :: driverValues atoi rest := by
  simp [driverValues]

@[simp] theorem driverValues_device_last (atoi : String → Int) :
    driverValues atoi ["--device"] = [] := by
  simp [driverValues]

@[simp] theorem driverValues_device (atoi : String → Int) (v : String) (rest : List String) :
    driverValues atoi ("--device" :: v :: rest) = driverValues atoi rest := by
  simp [driverValues]

theorem driverValues_other (atoi : String → Int) (arg : String) (rest : List String)
    (h1 : ¬arg = "--driver") (h2 : ¬arg = "--device") :
    driverValues atoi (arg :: rest) = driverValues atoi rest := by
  rw [driverValues.eq_def]
  simp [h1, h2]

theorem argLoop_invalid (env : Env) (args : List String) (cfg : Config)
    (h : hasInvalidArg env.atoi args = true) :
    ∃ tr, argLoop env args cfg = .halt tr (.exit 1) := by
  induction args, cfg using argLoop.induct env with
  | case6 cfg v rest device hdev _ ih =>
    have h0 : 0 ≤ env.atoi v := not_lt.mp hdev
    rw [argLoop_device_ok env v rest cfg h0]
    apply ih
    simpa [not_lt.mpr h0] using h
  | case8 rest cfg _ _ ih =>
    have h' : hasInvalidArg env.atoi rest = true := by simpa using h
    obtain ⟨t, ht⟩ := ih h'
    exact ⟨_, by rw [argLoop_debug, ht, prepend_halt]⟩
  | _ =>
    simp_all +zetaDelta [argLoop_driver_low, argLoop_driver_ok, argLoop_device_low,
      argLoop_device_ok, argLoop_unknown]

theorem argLoop_driver (env : Env) (args : List String) (cfg c : Config)
    (tr : List Event) (h : argLoop env args cfg = .cont tr c) :
    (∀ v ∈ driverValues env.atoi args, -1 ≤ v) ∧
      c.driver = (driverValues env.atoi args).getLastD cfg.driver := by
  induction args, cfg using argLoop.induct env generalizing tr with
  | case3 cfg v rest driver hd ih =>
    have h1 : -1 ≤ env.atoi v := not_lt.mp hd
    rw [argLoop_driver_ok env v rest cfg h1] at h
    obtain ⟨ha, hb⟩ := ih tr h
    rw [driverValues_driver, List.getLastD_cons]
    refine ⟨?_, hb⟩
    intro x hx
    rcases List.mem_cons.mp hx with rfl | hx
    · exact h1
    · exact ha x hx
  | case8 rest cfg _ _ ih =>
    rw [argLoop_debug] at h
    cases hr : argLoop env rest cfg with
    | halt t o => simp [hr] at h
    | cont t c' =>
      simp only [hr, prepend_cont, Res.cont.injEq] at h
      obtain ⟨rfl, rfl⟩ := h
      simpa [driverValues_other] using ih t hr
  | _ =>
    simp_all +zetaDelta [argLoop_driver_low, argLoop_driver_ok, argLoop_device_low,
      argLoop_device_ok, argLoop_unknown, driverValues_other, List.getLastD_cons]


/-! ## After the argument loop -/

theorem afterArgs_out_of_range (env : Env) (cfg : Config)
    (h : cfg.driver < -1 ∨ 6 < cfg.driver) :
    afterArgs env cfg =
      .halt [.uerror "driver should be between -1 and 6.", .printf usageText] (.exit 1) := by
  have h' : cfg.driver < -1 ∨ cfg.driver > 6 := h
  simp [afterArgs, rangeCheck, h']

theorem availabilityClass_range (driver : Int) (cls : AvailClass)
    (h : availabilityClass driver = some cls) : 1 ≤ driver ∧ driver ≤ 6 := by
  unfold availabilityClass at h
  split at h <;> simp_all

theorem availabilityClass_some (driver : Int) (h1 : 1 ≤ driver) (h6 : driver ≤ 6) :
    ∃ cls, availabilityClass driver = some cls := by
  interval_cases driver <;> simp [availabilityClass]

theorem documentedBackend_some (driver device : Int) (h1 : -1 ≤ driver) (h6 : driver ≤ 6) :
    ∃ b, documentedBackend driver device = some b := by
  interval_cases driver <;> simp [documentedBackend]

theorem documentedBackend_device (driver device : Int) (b : Backend)
    (h : documentedBackend driver device = some b) (hne : driver ≠ -1) :
    ∀ device', documentedBackend driver device' = some b := by
  intro device'
  unfold documentedBackend at h ⊢
  split at h <;> simp_all

theorem afterArgs_unavailable (env : Env) (cfg : Config) (cls : AvailClass)
    (hc : availabilityClass cfg.driver = some cls) (ha : env.available cls = false) :
    ∃ msg, afterArgs env cfg =
      .halt (infoLines cfg ++ [.available cls false, .uerror msg]) (.exit (-1)) := by
  obtain ⟨d, dev, st⟩ := cfg
  obtain ⟨h1, h2⟩ := availabilityClass_range _ _ hc
  simp only at h1 h2 hc
  interval_cases d <;> simp [availabilityClass] at hc <;> subst hc <;>
    simp [afterArgs, rangeCheck, resolve, requireAvailable, infoLines, ha]

theorem afterArgs_available (env : Env) (cfg : Config)
    (h1 : -1 ≤ cfg.driver) (h2 : cfg.driver ≤ 6)
    (ha : availabilityPasses env cfg.driver = true) :
    ∃ b, documentedBackend cfg.driver cfg.device = some b ∧
      afterArgs env cfg =
        if env.init b then
          .cont (infoLines cfg ++ availTrace env cfg.driver ++
            [b.newEvent, b.initEvent true, .newCameraThread b.thread] ++
            captureTrace cfg.stereo b.thread) 0
        else
          .halt (infoLines cfg ++ availTrace env cfg.driver ++
            [b.newEvent, b.initEvent false, .printf "Camera init failed!\n",
              b.deleteEvent]) (.exit 1) := by
  obtain ⟨d, dev, st⟩ := cfg
  simp only at h1 h2 ha
  interval_cases d <;> simp [availabilityPasses, availabilityClass] at ha <;>
    simp [documentedBackend, Env.init] <;>
    split <;>
    simp_all [afterArgs, rangeCheck, resolve, requireAvailable, newRGBD, initAndWrap,
      runDialog, deref, infoLines, availTrace, availabilityClass, captureTrace,
      Backend.newEvent, Backend.initEvent, Backend.deleteEvent, Backend.thread]


/-! ## Classification of actions -/

theorem isLog_of_isConsole (e : Event) (h : e.isConsole = true) : e.isLog = true := by
  cases e <;> simp_all [Event.isConsole, Event.isLog]

theorem isLog_quiet (e : Event) (h : e.isLog = true) :
    e.touchesCamera = false ∧ e.isLifecycle = false ∧ e.isConstruct = false ∧
      e.isAvailability = false ∧ e.isInit = false ∧ e.isThread = false ∧
      e.isFatal = false ∧ e.constructed = none := by
  cases e <;> simp_all [Event.isLog, Event.touchesCamera, Event.isLifecycle,
    Event.isConstruct, Event.isAvailability, Event.isInit, Event.isThread,
    Event.isFatal, Event.constructed]

theorem filter_log (p : Event → Bool) (hp : ∀ e, e.isLog = true → p e = false)
    (tr : List Event) (h : ∀ e ∈ tr, e.isLog = true) : tr.filter p = [] := by
  rw [List.filter_eq_nil_iff]
  intro e he
  simp [hp e (h e he)]

theorem filterMap_log (tr : List Event) (h : ∀ e ∈ tr, e.isLog = true) :
    tr.filterMap Event.constructed = [] := by
  induction tr with
  | nil => rfl
  | cons e tr ih =>
    have he := (isLog_quiet e (h e (List.mem_cons_self e tr))).2.2.2.2.2.2.2
    rw [List.filterMap_cons, he]
    exact ih (fun x hx => h x (List.mem_cons_of_mem e hx))

theorem preamble_log : ∀ e ∈ preamble, e.isLog = true := by
  simp [preamble, Event.isLog]

theorem infoLines_log (cfg : Config) : ∀ e ∈ infoLines cfg, e.isLog = true := by
  simp [infoLines, Event.isLog]

theorem argLoop_log (env : Env) (args : List String) (cfg : Config) :
    ∀ e ∈ (argLoop env args cfg).trace, e.isLog = true :=
  fun e he => isLog_of_isConsole e (argLoop_console env args cfg e he)

@[simp] theorem newEvent_class (b : Backend) :
    b.newEvent.touchesCamera = true ∧ b.newEvent.isLifecycle = false ∧
      b.newEvent.isConstruct = true ∧ b.newEvent.isAvailability = false ∧
      b.newEvent.isInit = false ∧ b.newEvent.isThread = false ∧
      b.newEvent.isFatal = false ∧ b.newEvent.constructed = some b := by
  cases b <;> simp [Backend.newEvent, Event.touchesCamera, Event.isLifecycle,
    Event.isConstruct, Event.isAvailability, Event.isInit, Event.isThread,
    Event.isFatal, Event.constructed]

@[simp] theorem initEvent_class (b : Backend) (ok : Bool) :
    (b.initEvent ok).touchesCamera = true ∧ (b.initEvent ok).isLifecycle = true ∧
      (b.initEvent ok).isConstruct = false ∧ (b.initEvent ok).isAvailability = false ∧
      (b.initEvent ok).isInit = true ∧ (b.initEvent ok).isThread = false ∧
      (b.initEvent ok).isFatal = false ∧ (b.initEvent ok).constructed = none := by
  cases b <;> simp [Backend.initEvent, Event.touchesCamera, Event.isLifecycle,
    Event.isConstruct, Event.isAvailability, Event.isInit, Event.isThread,
    Event.isFatal, Event.constructed]

@[simp] theorem deleteEvent_class (b : Backend) :
    b.deleteEvent.touchesCamera = true ∧ b.deleteEvent.isLifecycle = false ∧
      b.deleteEvent.isConstruct = false ∧ b.deleteEvent.isAvailability = false ∧
      b.deleteEvent.isInit = false ∧ b.deleteEvent.isThread = false ∧
      b.deleteEvent.isFatal = false ∧ b.deleteEvent.constructed = none := by
  cases b <;> simp [Backend.deleteEvent, Event.touchesCamera, Event.isLifecycle,
    Event.isConstruct, Event.isAvailability, Event.isInit, Event.isThread,
    Event.isFatal, Event.constructed]

/-! ## The whole run -/

theorem main_of_halt (env : Env) (args : List String) (tr : List Event) (o : Outcome)
    (h : argLoop env args Config.initial = .halt tr o) :
    main env args = .halt (preamble ++ tr) o := by
  rw [main_eq, h, bind_halt, prepend_halt]

theorem main_of_cont (env : Env) (args : List String) (tr : List Event) (cfg : Config)
    (h : argLoop env args Config.initial = .cont tr cfg) :
    main env args = (afterArgs env cfg).prepend (preamble ++ tr) := by
  rw [main_eq, h, bind_cont, prepend_prepend]

theorem availabilityPasses_false (env : Env) (driver : Int)
    (h : availabilityPasses env driver = false) :
    ∃ cls, availabilityClass driver = some cls ∧ env.available cls = false := by
  unfold availabilityPasses at h
  split at h
  · exact ⟨_, by assumption, h⟩
  · simp at h

theorem parse_log (env : Env) (args : List String) (hd : List Event) (cfg : Config)
    (hparse : argLoop env args Config.initial = .cont hd cfg) :
    ∀ e ∈ preamble ++ hd, e.isLog = true := by
  intro e he
  rcases List.mem_append.mp he with he | he
  · exact preamble_log e he
  · exact argLoop_log env args Config.initial e (by rw [hparse]; exact he)

theorem parse_info_log (env : Env) (args : List String) (hd : List Event) (cfg : Config)
    (hparse : argLoop env args Config.initial = .cont hd cfg) :
    ∀ e ∈ preamble ++ hd ++ infoLines cfg, e.isLog = true := by
  intro e he
  rcases List.mem_append.mp he with he | he
  · exact parse_log env args hd cfg hparse e he
  · exact infoLines_log cfg e he

theorem filter_head (p : Event → Bool) (hp : ∀ e, e.isLog = true → p e = false)
    (env : Env) (args : List String) (hd : List Event) (cfg : Config)
    (hparse : argLoop env args Config.initial = .cont hd cfg) (rest : List Event) :
    (preamble ++ hd ++ infoLines cfg ++ rest).filter p = rest.filter p := by
  rw [List.filter_append, filter_log p hp _ (parse_info_log env args hd cfg hparse),
    List.nil_append]

theorem filterMap_head (env : Env) (args : List String) (hd : List Event) (cfg : Config)
    (hparse : argLoop env args Config.initial = .cont hd cfg) (rest : List Event) :
    (preamble ++ hd ++ infoLines cfg ++ rest).filterMap Event.constructed =
      rest.filterMap Event.constructed := by
  rw [List.filterMap_append, filterMap_log _ (parse_info_log env args hd cfg hparse),
    List.nil_append]

/-- Every run of `main` that gets past the argument loop and the range check
has the actions of the loop and the info lines first, then one of three tails. -/
theorem main_tail (env : Env) (args : List String) (hd : List Event) (cfg : Config)
    (hparse : argLoop env args Config.initial = .cont hd cfg)
    (h1 : -1 ≤ cfg.driver) (h6 : cfg.driver ≤ 6) :
    ∃ b, documentedBackend cfg.driver cfg.device = some b ∧
      ((∃ cls msg, availabilityClass cfg.driver = some cls ∧ env.available cls = false ∧
          main env args = .halt (preamble ++ hd ++ infoLines cfg ++
            [.available cls false, .uerror msg]) (.exit (-1))) ∨
       (availabilityPasses env cfg.driver = true ∧ env.init b = false ∧
          main env args = .halt (preamble ++ hd ++ infoLines cfg ++
            (availTrace env cfg.driver ++
              [b.newEvent, b.initEvent false, .printf "Camera init failed!\n",
                b.deleteEvent])) (.exit 1)) ∨
       (availabilityPasses env cfg.driver = true ∧ env.init b = true ∧
          main env args = .cont (preamble ++ hd ++ infoLines cfg ++
            (availTrace env cfg.driver ++
              [b.newEvent, b.initEvent true, .newCameraThread b.thread] ++
              captureTrace cfg.stereo b.thread)) 0)) := by
  have hm := main_of_cont env args hd cfg hparse
  cases ha : availabilityPasses env cfg.driver with
  | false =>
    obtain ⟨b, hb⟩ := documentedBackend_some cfg.driver cfg.device h1 h6
    obtain ⟨cls, hc, hf⟩ := availabilityPasses_false env _ ha
    obtain ⟨msg, hmsg⟩ := afterArgs_unavailable env cfg cls hc hf
    rw [hmsg, prepend_halt] at hm
    exact ⟨b, hb, Or.inl ⟨cls, msg, hc, hf, by rw [hm]; simp⟩⟩
  | true =>
    obtain ⟨b, hb, hab⟩ := afterArgs_available env cfg h1 h6 ha
    refine ⟨b, hb, Or.inr ?_⟩
    cases hi : env.init b with
    | false =>
      left
      rw [hab, hi] at hm
      simp only [Bool.false_eq_true, if_false, prepend_halt] at hm
      exact ⟨rfl, rfl, by rw [hm]; simp⟩
    | true =>
      right
      rw [hab, hi] at hm
      simp only [if_true, prepend_cont] at hm
      exact ⟨rfl, rfl, by rw [hm]; simp⟩

theorem availTrace_of_some (env : Env) (driver : Int) (cls : AvailClass)
    (h : availabilityClass driver = some cls) :
    availTrace env driver = [.available cls (env.available cls)] := by
  simp [availTrace, h]

theorem availTrace_of_none (env : Env) (driver : Int)
    (h : availabilityClass driver = none) : availTrace env driver = [] := by
  simp [availTrace, h]

theorem availTrace_filter (p : Event → Bool) (hp : ∀ cls r, p (.available cls r) = false)
    (env : Env) (driver : Int) : (availTrace env driver).filter p = [] := by
  unfold availTrace
  split <;> simp [hp]

theorem availTrace_filterMap (env : Env) (driver : Int) :
    (availTrace env driver).filterMap Event.constructed = [] := by
  unfold availTrace
  split <;> simp [Event.constructed]

theorem main_usage_of_halt (env : Env) (args : List String) (tr : List Event) (o : Outcome)
    (hp : argLoop env args Config.initial = .halt tr o) :
    ∃ tr', main env args = .halt tr' (.exit 1) ∧ Event.printf usageText ∈ tr' ∧
      ∀ e ∈ tr', e.isLog = true := by
  obtain ⟨rfl, hu⟩ := argLoop_halt env args _ tr o hp
  refine ⟨_, main_of_halt env args tr _ hp, by simp [hu], ?_⟩
  intro e he
  rcases List.mem_append.mp he with he | he
  · exact preamble_log e he
  · exact argLoop_log env args Config.initial e (by rw [hp]; exact he)

theorem main_usage_of_range (env : Env) (args : List String) (hd : List Event) (cfg : Config)
    (hparse : argLoop env args Config.initial = .cont hd cfg)
    (hrange : cfg.driver < -1 ∨ 6 < cfg.driver) :
    main env args = .halt (preamble ++ hd ++
        [.uerror "driver should be between -1 and 6.", .printf usageText]) (.exit 1) ∧
      ∀ e ∈ preamble ++ hd ++
        [.uerror "driver should be between -1 and 6.", .printf usageText],
        e.isLog = true := by
  have hm := main_of_cont env args hd cfg hparse
  rw [afterArgs_out_of_range env cfg hrange, prepend_halt] at hm
  refine ⟨hm, ?_⟩
  intro e he
  rcases List.mem_append.mp he with he | he
  · exact parse_log env args hd cfg hparse e he
  · simp only [List.mem_cons, List.mem_singleton, List.not_mem_nil, or_false] at he
    rcases he with rfl | rfl <;> rfl

/-- Every run of `main` has one of four shapes: usage and `exit(1)`; a failed
availability check and `exit(-1)`; a failed `init()` and `exit(1)`; or the
complete capture phase and a normal return. -/
theorem main_cases (env : Env) (args : List String) :
    (∃ tr, main env args = .halt tr (.exit 1) ∧ Event.printf usageText ∈ tr ∧
        ∀ e ∈ tr, e.isLog = true) ∨
    (∃ hd cfg cls msg, argLoop env args Config.initial = .cont hd cfg ∧
        main env args = .halt (preamble ++ hd ++ infoLines cfg ++
          [.available cls false, .uerror msg]) (.exit (-1))) ∨
    (∃ hd cfg b, argLoop env args Config.initial = .cont hd cfg ∧ env.init b = false ∧
        main env args = .halt (preamble ++ hd ++ infoLines cfg ++
          (availTrace env cfg.driver ++
            [b.newEvent, b.initEvent false, .printf "Camera init failed!\n",
              b.deleteEvent])) (.exit 1)) ∨
    (∃ hd cfg b, argLoop env args Config.initial = .cont hd cfg ∧ env.init b = true ∧
        main env args = .cont (preamble ++ hd ++ infoLines cfg ++
          (availTrace env cfg.driver ++
            [b.newEvent, b.initEvent true, .newCameraThread b.thread] ++
            captureTrace cfg.stereo b.thread)) 0) := by
  cases hp : argLoop env args Config.initial with
  | halt tr o => exact Or.inl (main_usage_of_halt env args tr o hp)
  | cont hd cfg =>
    by_cases hr : cfg.driver < -1 ∨ 6 < cfg.driver
    · obtain ⟨hm, hl⟩ := main_usage_of_range env args hd cfg hp hr
      exact Or.inl ⟨_, hm, by simp, hl⟩
    · right
      have h1 : -1 ≤ cfg.driver := by omega
      have h6 : cfg.driver ≤ 6 := by omega
      obtain ⟨b, _, hcases⟩ := main_tail env args hd cfg hp h1 h6
      rcases hcases with ⟨cls, msg, _, _, hm⟩ | ⟨_, hi, hm⟩ | ⟨_, hi, hm⟩
      · exact Or.inl ⟨hd, cfg, cls, msg, rfl, hm⟩
      · exact Or.inr (Or.inl ⟨hd, cfg, b, rfl, hi, hm⟩)
      · exact Or.inr (Or.inr ⟨hd, cfg, b, rfl, hi, hm⟩)

theorem argLoop_render (env : Env) (opts : List Opt) (cfg : Config)
    (h : ∀ o ∈ opts, o.wellFormed env.atoi = true) :
    argLoop env (Opt.render opts) cfg =
      .cont (Opt.debugTrace opts)
        { driver := Opt.lastDriver env.atoi cfg.driver opts,
          device := Opt.lastDevice env.atoi cfg.device opts,
          stereo := cfg.stereo || decide (Opt.stereo ∈ opts) } := by
  induction opts generalizing cfg with
  | nil => simp [Opt.render, Opt.debugTrace, Opt.lastDriver, Opt.lastDevice]
  | cons o os ih =>
    have hos : ∀ o ∈ os, o.wellFormed env.atoi = true :=
      fun x hx => h x (List.mem_cons_of_mem o hx)
    have ho := h o (List.mem_cons_self o os)
    cases o with
    | driver v =>
      have hv : -1 ≤ env.atoi v := by simpa [Opt.wellFormed] using ho
      simp [Opt.render, Opt.tokens, Opt.debugTrace, Opt.lastDriver, Opt.lastDevice,
        argLoop_driver_ok env v _ cfg hv, ih _ hos]
    | device v =>
      have hv : 0 ≤ env.atoi v := by simpa [Opt.wellFormed] using ho
      simp [Opt.render, Opt.tokens, Opt.debugTrace, Opt.lastDriver, Opt.lastDevice,
        argLoop_device_ok env v _ cfg hv, ih _ hos]
    | debug =>
      simp [Opt.render, Opt.tokens, Opt.debugTrace, Opt.lastDriver, Opt.lastDevice,
        ih _ hos]
    | stereo =>
      simp [Opt.render, Opt.tokens, Opt.debugTrace, Opt.lastDriver, Opt.lastDevice,
        ih _ hos]

theorem resolve_in_range (env : Env) (driver device : Int)
    (h1 : -1 ≤ driver) (h6 : driver ≤ 6) :
    (∀ e ∈ (resolve env driver device).trace, e.isFatal = false) ∧
      ∀ tr cameraUsb camera, resolve env driver device = .cont tr (cameraUsb, camera) →
        cameraUsb.isSome = !camera.isSome := by
  interval_cases driver <;>
    simp [resolve, requireAvailable, newRGBD, Event.isFatal] <;>
    cases env.available _ <;>
    simp [Event.isFatal]

theorem initAndWrap_some (env : Env) (cameraUsb : Option Camera)
    (camera : Option CameraRGBD) (h : cameraUsb.isSome = !camera.isSome)
    (tr : List Event) (cameraThread : Option CameraThread)
    (hw : initAndWrap env (cameraUsb, camera) = .cont tr cameraThread) :
    cameraThread.isSome = true := by
  cases cameraUsb with
  | some cu =>
    cases hi : env.initCamera cu <;> simp [initAndWrap, hi] at hw
    simp [← hw.2]
  | none =>
    cases camera with
    | none => simp at h
    | some c =>
      cases hi : env.initCameraRGBD c <;> simp [initAndWrap, hi] at hw
      simp [← hw.2]

/-! ## Properties of the program -/

/-- C1: when the argument loop completes with a driver value outside -1..6,
`main` logs the range error, shows the usage and exits with code 1, and the run
contains no action on a camera: no backend is constructed, no availability
predicate is consulted, no `init()` is called and no `CameraThread` is
created. -/
theorem out_of_range_driver_shows_usage (env : Env) (args : List String)
    (hd : List Event) (cfg : Config)
    (hparse : argLoop env args Config.initial = .cont hd cfg)
    (hrange : cfg.driver < -1 ∨ 6 < cfg.driver) :
    main env args = .halt (preamble ++ hd ++
        [.uerror "driver should be between -1 and 6.", .printf usageText]) (.exit 1) ∧
      ∀ e ∈ (main env args).trace, e.touchesCamera = false := by
  obtain ⟨hm, hl⟩ := main_usage_of_range env args hd cfg hparse hrange
  refine ⟨hm, ?_⟩
  rw [hm]
  exact fun e he => (isLog_quiet e (hl e he)).1

/-- C1, at `--driver 7`: the loop completes with driver 7 and `main` shows the
usage. -/
theorem out_of_range_driver_shows_usage_witness :
    argLoop fullEnv ["--driver", "7"] Config.initial =
        .cont [] { driver := 7, device := 0, stereo := false } ∧
      (main fullEnv ["--driver", "7"] = .halt (preamble ++ [] ++
        [.uerror "driver should be between -1 and 6.", .printf usageText]) (.exit 1) ∧
      ∀ e ∈ (main fullEnv ["--driver", "7"]).trace, e.touchesCamera = false) :=
  ⟨by decide, out_of_range_driver_shows_usage fullEnv ["--driver", "7"] []
    { driver := 7, device := 0, stereo := false } (by decide) (by decide)⟩

/-- C2: when the argument loop completes with a driver in 1..6 whose
availability predicate returns false, whatever the device index and the stereo
flag, `main` consults that predicate, logs an error and exits with code -1; the
run constructs no backend, calls no `init()` and creates or starts no
`CameraThread`. -/
theorem unavailable_backend_exits (env : Env) (args : List String)
    (hd : List Event) (cfg : Config)
    (hparse : argLoop env args Config.initial = .cont hd cfg)
    (h1 : 1 ≤ cfg.driver) (h6 : cfg.driver ≤ 6)
    (hun : ∀ cls, availabilityClass cfg.driver = some cls → env.available cls = false) :
    (∃ cls msg, availabilityClass cfg.driver = some cls ∧
        main env args = .halt (preamble ++ hd ++ infoLines cfg ++
          [.available cls false, .uerror msg]) (.exit (-1))) ∧
      ∀ e ∈ (main env args).trace,
        e.isConstruct = false ∧ e.isInit = false ∧ e.isThread = false := by
  have hm := main_of_cont env args hd cfg hparse
  obtain ⟨cls, hcls⟩ := availabilityClass_some cfg.driver h1 h6
  have hun := hun cls hcls
  obtain ⟨msg, hmsg⟩ := afterArgs_unavailable env cfg cls hcls hun
  rw [hmsg, prepend_halt, ← List.append_assoc] at hm
  refine ⟨⟨cls, msg, hcls, hm⟩, ?_⟩
  rw [hm]
  intro e he
  rcases List.mem_append.mp he with he | he
  · have hq := isLog_quiet e (parse_info_log env args hd cfg hparse e he)
    exact ⟨hq.2.2.1, hq.2.2.2.2.1, hq.2.2.2.2.2.1⟩
  · simp only [List.mem_cons, List.mem_singleton, List.not_mem_nil, or_false] at he
    rcases he with rfl | rfl <;> exact ⟨rfl, rfl, rfl⟩

/-- C2, at `--driver 3 --device 2 --stereo` in a build without OpenNI-CV. -/
theorem unavailable_backend_exits_witness :
    argLoop bareEnv ["--driver", "3", "--device", "2", "--stereo"] Config.initial =
        .cont [] { driver := 3, device := 2, stereo := true } ∧
      ((∃ cls msg, availabilityClass 3 = some cls ∧
        main bareEnv ["--driver", "3", "--device", "2", "--stereo"] =
        .halt (preamble ++ [] ++ infoLines { driver := 3, device := 2, stereo := true } ++
          [.available cls false, .uerror msg]) (.exit (-1))) ∧
      ∀ e ∈ (main bareEnv ["--driver", "3", "--device", "2", "--stereo"]).trace,
        e.isConstruct = false ∧ e.isInit = false ∧ e.isThread = false) :=
  ⟨by decide, unavailable_backend_exits bareEnv
    ["--driver", "3", "--device", "2", "--stereo"] []
    { driver := 3, device := 2, stereo := true }
    (by decide) (by decide) (by decide) (fun _ _ => rfl)⟩


/-- C3 (counterexample): with no `--driver` option (driver -1) and with
`--driver 0`, a backend is constructed although no availability predicate is
evaluated anywhere in the run. -/
theorem construction_without_availability_check :
    (main fullEnv []).trace.filter (fun e => e.isAvailability || e.isConstruct) =
        [.newCamera (.CameraVideo 0)] ∧
      (main fullEnv ["--driver", "0"]).trace.filter
          (fun e => e.isAvailability || e.isConstruct) =
        [.newCameraRGBD .CameraOpenni] := by
  decide

/-- C3 (amended): for every driver in 1..6 the availability predicate of its
class is evaluated before anything is constructed, and the documented backend is
constructed only when the predicate returned true; drivers -1 and 0 have no
availability predicate and their backend is constructed directly. The list
compared is the run of `main` restricted to availability checks and
constructions, in order. -/
theorem availability_checked_for_guarded_drivers (env : Env) (args : List String)
    (hd : List Event) (cfg : Config)
    (hparse : argLoop env args Config.initial = .cont hd cfg)
    (h1 : -1 ≤ cfg.driver) (h6 : cfg.driver ≤ 6) :
    ∃ b, documentedBackend cfg.driver cfg.device = some b ∧
      (1 ≤ cfg.driver → ∃ cls, availabilityClass cfg.driver = some cls ∧
        (main env args).trace.filter (fun e => e.isAvailability || e.isConstruct) =
          if env.available cls then [.available cls true, b.newEvent]
          else [.available cls false]) ∧
      (cfg.driver ≤ 0 →
        (main env args).trace.filter (fun e => e.isAvailability || e.isConstruct) =
          [b.newEvent]) := by
  have hp : ∀ e : Event, e.isLog = true →
      (fun e : Event => e.isAvailability || e.isConstruct) e = false := by
    intro e he
    have hq := isLog_quiet e he
    simp [hq.2.2.1, hq.2.2.2.1]
  obtain ⟨b, hb, hcases⟩ := main_tail env args hd cfg hparse h1 h6
  refine ⟨b, hb, ?_, ?_⟩
  · intro hpos
    obtain ⟨cls, hc⟩ := availabilityClass_some cfg.driver hpos h6
    refine ⟨cls, hc, ?_⟩
    rcases hcases with ⟨cls', msg, hc', hf, hm⟩ | ⟨ha, _, hm⟩ | ⟨ha, _, hm⟩
    · rw [hc] at hc'
      cases hc'
      rw [hm, trace_halt, filter_head _ hp env args hd cfg hparse, hf]
      cases b <;> simp [Event.isAvailability, Event.isConstruct, Backend.newEvent,
        Backend.initEvent, Backend.deleteEvent]
    · have hav : env.available cls = true := by
        simpa [availabilityPasses, hc] using ha
      rw [hm, trace_halt, filter_head _ hp env args hd cfg hparse,
        availTrace_of_some env _ cls hc, hav]
      cases b <;> simp [Event.isAvailability, Event.isConstruct, Backend.newEvent,
        Backend.initEvent, Backend.deleteEvent]
    · have hav : env.available cls = true := by
        simpa [availabilityPasses, hc] using ha
      rw [hm, trace_cont, filter_head _ hp env args hd cfg hparse,
        availTrace_of_some env _ cls hc, hav]
      cases b <;> simp [Event.isAvailability, Event.isConstruct, captureTrace,
        Backend.newEvent, Backend.initEvent, Backend.thread]
  · intro hle
    have hn : availabilityClass cfg.driver = none := by
      obtain ⟨d, dev, st⟩ := cfg
      simp only at h1 hle ⊢
      interval_cases d <;> simp [availabilityClass]
    rcases hcases with ⟨cls', msg, hc', hf, hm⟩ | ⟨ha, _, hm⟩ | ⟨ha, _, hm⟩
    · rw [hn] at hc'
      cases hc'
    · rw [hm, trace_halt, filter_head _ hp env args hd cfg hparse,
        availTrace_of_none env _ hn]
      cases b <;> simp [Event.isAvailability, Event.isConstruct, Backend.newEvent,
        Backend.initEvent, Backend.deleteEvent]
    · rw [hm, trace_cont, filter_head _ hp env args hd cfg hparse,
        availTrace_of_none env _ hn]
      cases b <;> simp [Event.isAvailability, Event.isConstruct, captureTrace,
        Backend.newEvent, Backend.initEvent, Backend.thread]

/-- C3 (amended), at `--driver 5` in a build without Freenect2: the predicate is
evaluated and nothing is constructed. -/
theorem availability_checked_for_guarded_drivers_witness :
    argLoop bareEnv ["--driver", "5"] Config.initial =
        .cont [] { driver := 5, device := 0, stereo := false } ∧
      ∃ b, documentedBackend 5 0 = some b ∧
        ((1 : Int) ≤ 5 → ∃ cls, availabilityClass 5 = some cls ∧
          (main bareEnv ["--driver", "5"]).trace.filter
              (fun e => e.isAvailability || e.isConstruct) =
            if bareEnv.available cls then [.available cls true, b.newEvent]
            else [.available cls false]) ∧
        ((5 : Int) ≤ 0 →
          (main bareEnv ["--driver", "5"]).trace.filter
              (fun e => e.isAvailability || e.isConstruct) =
            [b.newEvent]) :=
  ⟨by decide, availability_checked_for_guarded_drivers bareEnv ["--driver", "5"] []
    { driver := 5, device := 0, stereo := false } (by decide) (by decide) (by decide)⟩


/-- C4: in every run of `main`, (1) if the backend constructed in the run has an
`init()` that returns false, the run ends with the construction, the failed
`init()`, the error message, the deletion of that backend and `exit(1)`, and it
contains no action on a `CameraThread`; (2) the same holds whenever a failed
`init()` occurs in the run; (3) whenever `start()` occurs in the run, the
thread started wraps a backend whose `init()` returned true, and the `init()`
and thread actions of the run are, in order, that successful `init()`, the
construction of the thread, `start()`, `join(true)` and the deletion. -/
theorem init_failure_exits (env : Env) (args : List String) :
    (∀ b : Backend, b.newEvent ∈ (main env args).trace → env.init b = false →
      (∃ tr, main env args = .halt (tr ++
          [b.newEvent, b.initEvent false, .printf "Camera init failed!\n", b.deleteEvent])
          (.exit 1)) ∧
        ∀ e ∈ (main env args).trace, e.isThread = false) ∧
    (∀ b : Backend, b.initEvent false ∈ (main env args).trace →
      (∃ tr, main env args = .halt (tr ++
          [b.newEvent, b.initEvent false, .printf "Camera init failed!\n", b.deleteEvent])
          (.exit 1)) ∧
        ∀ e ∈ (main env args).trace, e.isThread = false) ∧
    (∀ t : CameraThread, Event.threadStart t ∈ (main env args).trace →
      ∃ b : Backend, t = b.thread ∧ env.init b = true ∧
        (main env args).trace.filter (fun e => e.isInit || e.isThread) =
          [b.initEvent true, .newCameraThread b.thread, .threadStart b.thread,
            .threadJoin b.thread true, .deleteCameraThread b.thread]) := by
  have hlog : ∀ e : Event, e.isLog = true → e.isInit = false :=
    fun e he => (isLog_quiet e he).2.2.2.2.1
  have hlogt : ∀ e : Event, e.isLog = true → e.isThread = false :=
    fun e he => (isLog_quiet e he).2.2.2.2.2.1
  have hlogc : ∀ e : Event, e.isLog = true → e.isConstruct = false :=
    fun e he => (isLog_quiet e he).2.2.1
  have hlogit : ∀ e : Event, e.isLog = true →
      (fun e : Event => e.isInit || e.isThread) e = false := by
    intro e he
    simp [hlog e he, hlogt e he]
  have hfail : ∀ (hd : List Event) (cfg : Config) (b : Backend),
      argLoop env args Config.initial = .cont hd cfg →
      main env args = .halt (preamble ++ hd ++ infoLines cfg ++
        (availTrace env cfg.driver ++
          [b.newEvent, b.initEvent false, .printf "Camera init failed!\n",
            b.deleteEvent])) (.exit 1) →
      (∃ tr, main env args = .halt (tr ++
          [b.newEvent, b.initEvent false, .printf "Camera init failed!\n", b.deleteEvent])
          (.exit 1)) ∧
        ∀ e ∈ (main env args).trace, e.isThread = false := by
    intro hd cfg b hp hm
    refine ⟨⟨preamble ++ hd ++ infoLines cfg ++ availTrace env cfg.driver, ?_⟩, ?_⟩
    · rw [hm]
      simp
    · have hnil : (main env args).trace.filter Event.isThread = [] := by
        rw [hm, trace_halt, filter_head _ hlogt env args hd cfg hp, List.filter_append,
          availTrace_filter _ (fun _ _ => rfl)]
        cases b <;> simp [Event.isThread, Backend.newEvent, Backend.initEvent,
          Backend.deleteEvent]
      intro e he
      have := List.filter_eq_nil_iff.mp hnil e he
      simpa using this
  refine ⟨?_, ?_, ?_⟩
  · intro b hnew hinit
    have hin : b.newEvent ∈ (main env args).trace.filter Event.isConstruct :=
      List.mem_filter.mpr ⟨hnew, by simp⟩
    rcases main_cases env args with ⟨tr, hm, _, hl⟩ | ⟨hd, cfg, cls, msg, hp, hm⟩ |
        ⟨hd, cfg, b', hp, _, hm⟩ | ⟨hd, cfg, b', hp, hi, hm⟩
    · rw [hm, trace_halt, filter_log _ hlogc tr hl] at hin
      simp at hin
    · rw [hm, trace_halt, filter_head _ hlogc env args hd cfg hp] at hin
      simp [Event.isConstruct] at hin
    · rw [hm, trace_halt, filter_head _ hlogc env args hd cfg hp, List.filter_append,
        availTrace_filter _ (fun _ _ => rfl)] at hin
      have hbb : b = b' := by
        cases b <;> cases b' <;>
          simp [Event.isConstruct, Backend.newEvent, Backend.initEvent,
            Backend.deleteEvent] at hin <;>
          simp [hin]
      subst hbb
      exact hfail hd cfg b hp hm
    · rw [hm, trace_cont, filter_head _ hlogc env args hd cfg hp, List.filter_append,
        List.filter_append, availTrace_filter _ (fun _ _ => rfl)] at hin
      have hbb : b = b' := by
        cases b <;> cases b' <;>
          simp [Event.isConstruct, Backend.newEvent, Backend.initEvent, captureTrace]
            at hin <;>
          simp [hin]
      subst hbb
      rw [hinit] at hi
      cases hi
  · intro b h
    have hin : b.initEvent false ∈ (main env args).trace.filter Event.isInit :=
      List.mem_filter.mpr ⟨h, by simp⟩
    rcases main_cases env args with ⟨tr, hm, _, hl⟩ | ⟨hd, cfg, cls, msg, hp, hm⟩ |
        ⟨hd, cfg, b', hp, _, hm⟩ | ⟨hd, cfg, b', hp, _, hm⟩
    · rw [hm, trace_halt, filter_log _ hlog tr hl] at hin
      simp at hin
    · rw [hm, trace_halt, filter_head _ hlog env args hd cfg hp] at hin
      simp [Event.isInit] at hin
    · rw [hm, trace_halt, filter_head _ hlog env args hd cfg hp, List.filter_append,
        availTrace_filter _ (fun _ _ => rfl)] at hin
      have hbb : b = b' := by
        cases b <;> cases b' <;>
          simp [Event.isInit, Backend.newEvent, Backend.initEvent, Backend.deleteEvent]
            at hin <;>
          simp [hin]
      subst hbb
      exact hfail hd cfg b hp hm
    · rw [hm, trace_cont, filter_head _ hlog env args hd cfg hp, List.filter_append,
        List.filter_append, availTrace_filter _ (fun _ _ => rfl)] at hin
      cases b <;> cases b' <;>
        simp [Event.isInit, Backend.newEvent, Backend.initEvent, captureTrace] at hin
  · intro t ht
    have hin : Event.threadStart t ∈ (main env args).trace.filter Event.isThread :=
      List.mem_filter.mpr ⟨ht, rfl⟩
    rcases main_cases env args with ⟨tr, hm, _, hl⟩ | ⟨hd, cfg, cls, msg, hp, hm⟩ |
        ⟨hd, cfg, b, hp, _, hm⟩ | ⟨hd, cfg, b, hp, hi, hm⟩
    · rw [hm, trace_halt, filter_log _ hlogt tr hl] at hin
      simp at hin
    · rw [hm, trace_halt, filter_head _ hlogt env args hd cfg hp] at hin
      simp [Event.isThread] at hin
    · rw [hm, trace_halt, filter_head _ hlogt env args hd cfg hp, List.filter_append,
        availTrace_filter _ (fun _ _ => rfl)] at hin
      cases b <;>
        simp [Event.isThread, Backend.newEvent, Backend.initEvent, Backend.deleteEvent]
          at hin
    · rw [hm, trace_cont, filter_head _ hlogt env args hd cfg hp, List.filter_append,
        List.filter_append, availTrace_filter _ (fun _ _ => rfl)] at hin
      have htb : t = b.thread := by
        cases b <;>
          simp [Event.isThread, Backend.newEvent, Backend.initEvent, Backend.thread,
            captureTrace] at hin <;>
          simp [hin, Backend.thread]
      refine ⟨b, htb, hi, ?_⟩
      rw [hm, trace_cont, filter_head _ hlogit env args hd cfg hp, List.filter_append,
        List.filter_append, availTrace_filter _ (fun _ _ => rfl)]
      cases b <;>
        simp [Event.isInit, Event.isThread, Backend.newEvent, Backend.initEvent,
          Backend.thread, captureTrace]

/-- C4, with no argument: with no device attached `init()` of the USB camera
fails and the run exits; with a device attached the thread that is started
wraps the initialised USB camera. -/
theorem init_failure_exits_witness :
    ((Backend.usb (.CameraVideo 0)).newEvent ∈ (main noDeviceEnv []).trace ∧
      noDeviceEnv.init (.usb (.CameraVideo 0)) = false ∧
      (Backend.usb (.CameraVideo 0)).initEvent false ∈ (main noDeviceEnv []).trace ∧
      ((∃ tr, main noDeviceEnv [] = .halt (tr ++
        [(Backend.usb (.CameraVideo 0)).newEvent,
          (Backend.usb (.CameraVideo 0)).initEvent false,
          .printf "Camera init failed!\n",
          (Backend.usb (.CameraVideo 0)).deleteEvent]) (.exit 1)) ∧
      ∀ e ∈ (main noDeviceEnv []).trace, e.isThread = false)) ∧
    (Event.threadStart (.ofCamera (.CameraVideo 0)) ∈ (main fullEnv []).trace ∧
      ∃ b : Backend, CameraThread.ofCamera (.CameraVideo 0) = b.thread ∧
        fullEnv.init b = true ∧
        (main fullEnv []).trace.filter (fun e => e.isInit || e.isThread) =
          [b.initEvent true, .newCameraThread b.thread, .threadStart b.thread,
            .threadJoin b.thread true, .deleteCameraThread b.thread]) :=
  ⟨⟨by decide, rfl, by decide,
      (init_failure_exits noDeviceEnv []).1 (.usb (.CameraVideo 0)) (by decide) rfl⟩,
    ⟨by decide,
      (init_failure_exits fullEnv []).2.2 (.ofCamera (.CameraVideo 0)) (by decide)⟩⟩

/-- C5: every argument list that contains an invalid argument in option
position makes `main` print the usage text and exit with code 1, and the run
contains no action on a camera, so no backend is constructed. -/
theorem invalid_argument_shows_usage (env : Env) (args : List String)
    (h : hasInvalidArg env.atoi args = true) :
    ∃ tr, main env args = .halt tr (.exit 1) ∧ Event.printf usageText ∈ tr ∧
      ∀ e ∈ tr, e.touchesCamera = false := by
  obtain ⟨t, ht⟩ := argLoop_invalid env args Config.initial h
  obtain ⟨tr, hm, hu, hl⟩ := main_usage_of_halt env args t _ ht
  exact ⟨tr, hm, hu, fun e he => (isLog_quiet e (hl e he)).1⟩

/-- C5, at `--stereo --device -2 --driver 1`: a negative device value. -/
theorem invalid_argument_shows_usage_witness :
    hasInvalidArg fullEnv.atoi ["--stereo", "--device", "-2", "--driver", "1"] = true ∧
      ∃ tr, main fullEnv ["--stereo", "--device", "-2", "--driver", "1"] =
          .halt tr (.exit 1) ∧ Event.printf usageText ∈ tr ∧
        ∀ e ∈ tr, e.touchesCamera = false :=
  ⟨by decide, invalid_argument_shows_usage fullEnv
    ["--stereo", "--device", "-2", "--driver", "1"] (by decide)⟩

/-- C6: for every driver value in -1..6 whose availability check, if it has
one, passes, the backends constructed during the run are exactly one, the
backend the usage text documents for that driver. It is determined by the
driver value and the device index, whatever the stereo flag, and for a driver
other than -1 by the driver value alone. -/
theorem constructed_backend_is_documented (env : Env) (args : List String)
    (hd : List Event) (cfg : Config)
    (hparse : argLoop env args Config.initial = .cont hd cfg)
    (h1 : -1 ≤ cfg.driver) (h6 : cfg.driver ≤ 6)
    (ha : availabilityPasses env cfg.driver = true) :
    ∃ b, documentedBackend cfg.driver cfg.device = some b ∧
      (main env args).trace.filterMap Event.constructed = [b] ∧
      (cfg.driver ≠ -1 → ∀ device, documentedBackend cfg.driver device = some b) := by
  obtain ⟨b, hb, hcases⟩ := main_tail env args hd cfg hparse h1 h6
  refine ⟨b, hb, ?_, documentedBackend_device cfg.driver cfg.device b hb⟩
  rcases hcases with ⟨cls, msg, hc, hf, _⟩ | ⟨_, _, hm⟩ | ⟨_, _, hm⟩
  · simp [availabilityPasses, hc, hf] at ha
  · rw [hm, trace_halt, filterMap_head env args hd cfg hparse, List.filterMap_append,
      availTrace_filterMap]
    cases b <;> simp [Event.constructed, Backend.newEvent, Backend.initEvent,
      Backend.deleteEvent]
  · rw [hm, trace_cont, filterMap_head env args hd cfg hparse, List.filterMap_append,
      List.filterMap_append, availTrace_filterMap]
    cases b <;> simp [Event.constructed, Backend.newEvent, Backend.initEvent,
      Backend.thread, captureTrace]

/-- C6, at `--stereo --driver 4 --device 1`: the ASUS variant of OpenNI-CV. -/
theorem constructed_backend_is_documented_witness :
    argLoop fullEnv ["--stereo", "--driver", "4", "--device", "1"] Config.initial =
        .cont [] { driver := 4, device := 1, stereo := true } ∧
      ∃ b, documentedBackend 4 1 = some b ∧
        (main fullEnv ["--stereo", "--driver", "4", "--device", "1"]).trace.filterMap
          Event.constructed = [b] ∧
        ((4 : Int) ≠ -1 → ∀ device, documentedBackend 4 device = some b) :=
  ⟨by decide, constructed_backend_is_documented fullEnv
    ["--stereo", "--driver", "4", "--device", "1"] []
    { driver := 4, device := 1, stereo := true } (by decide) (by decide) (by decide)
    (by decide)⟩


/-- C7 (counterexample): on `--driver 7 --driver 0` the first `--driver` option
carries the out-of-range value 7, yet `main` does not show the usage: it
constructs the OpenNI backend and returns normally. -/
theorem overridden_out_of_range_driver_accepted :
    (7 : Int) ∈ driverValues atoi ["--driver", "7", "--driver", "0"] ∧
      (main fullEnv ["--driver", "7", "--driver", "0"]).outcome? = none ∧
      (main fullEnv ["--driver", "7", "--driver", "0"]).trace.filterMap
          Event.constructed = [.rgbd .CameraOpenni] ∧
      Event.printf usageText ∉ (main fullEnv ["--driver", "7", "--driver", "0"]).trace := by
  decide

/-- C7 (amended): every argument list in which some `--driver` option carries a
value below -1, or in which the last `--driver` option carries a value above 6,
makes `main` show the usage and exit with code 1 without any action on a
camera. -/
theorem rejected_driver_values (env : Env) (args : List String)
    (h : (∃ v ∈ driverValues env.atoi args, v < -1) ∨
      6 < (driverValues env.atoi args).getLastD (-1)) :
    ∃ tr, main env args = .halt tr (.exit 1) ∧ Event.printf usageText ∈ tr ∧
      ∀ e ∈ tr, e.touchesCamera = false := by
  cases hp : argLoop env args Config.initial with
  | halt t o =>
    obtain ⟨tr, hm, hu, hl⟩ := main_usage_of_halt env args t o hp
    exact ⟨tr, hm, hu, fun e he => (isLog_quiet e (hl e he)).1⟩
  | cont hd cfg =>
    obtain ⟨hall, hlast⟩ := argLoop_driver env args Config.initial cfg hd hp
    have hrange : cfg.driver < -1 ∨ 6 < cfg.driver := by
      rcases h with ⟨v, hv, hlt⟩ | h
      · have := hall v hv
        omega
      · right
        rw [hlast]
        exact h
    obtain ⟨hm, hl⟩ := main_usage_of_range env args hd cfg hp hrange
    exact ⟨_, hm, by simp, fun e he => (isLog_quiet e (hl e he)).1⟩

/-- C7 (amended), at `--driver 0 --driver 7`: the last value is above 6. -/
theorem rejected_driver_values_witness :
    ((∃ v ∈ driverValues fullEnv.atoi ["--driver", "0", "--driver", "7"], v < -1) ∨
        6 < (driverValues fullEnv.atoi ["--driver", "0", "--driver", "7"]).getLastD (-1)) ∧
      ∃ tr, main fullEnv ["--driver", "0", "--driver", "7"] = .halt tr (.exit 1) ∧
        Event.printf usageText ∈ tr ∧ ∀ e ∈ tr, e.touchesCamera = false :=
  ⟨Or.inr (by decide), rejected_driver_values fullEnv
    ["--driver", "0", "--driver", "7"] (Or.inr (by decide))⟩

/-- C8: on the argument list written for any list of well-formed options the
argument loop finishes without showing the usage; its only actions are the
logger calls of the `--debug` options, and it yields the driver of the last
`--driver` option (default -1), the device of the last `--device` option
(default 0) and the stereo flag set exactly when `--stereo` is among the options.
An option value is an arbitrary token and is never read as an option. -/
theorem well_formed_options_parse (env : Env) (opts : List Opt)
    (h : ∀ o ∈ opts, o.wellFormed env.atoi = true) :
    argLoop env (Opt.render opts) Config.initial =
      .cont (Opt.debugTrace opts)
        { driver := Opt.lastDriver env.atoi (-1) opts,
          device := Opt.lastDevice env.atoi 0 opts,
          stereo := decide (Opt.stereo ∈ opts) } := by
  rw [argLoop_render env opts Config.initial h]
  simp [Config.initial]

/-- C8, at `--driver --stereo --device 3 --debug --driver 2 --device --help`:
the tokens `--stereo` and `--help` are values here, so the stereo flag stays
false and no usage is shown. -/
theorem well_formed_options_parse_witness :
    (∀ o ∈ [Opt.driver "--stereo", .device "3", .debug, .driver "2", .device "--help"],
        o.wellFormed fullEnv.atoi = true) ∧
      argLoop fullEnv
          ["--driver", "--stereo", "--device", "3", "--debug", "--driver", "2",
            "--device", "--help"] Config.initial =
        .cont [.setLoggerLevel true] { driver := 2, device := 0, stereo := false } :=
  ⟨by decide, (well_formed_options_parse fullEnv
    [.driver "--stereo", .device "3", .debug, .driver "2", .device "--help"]
    (by decide)).trans (by decide)⟩

/-- C9: on every run of `main` in which an action of the capture phase occurs,
the lifecycle actions of the run are, in this order and once each: `init()`
returning true, construction of the `CameraThread` on that backend, `start()`,
the event loop, `join(true)` and deletion of the thread; the run then returns
normally. -/
theorem capture_lifecycle_order (env : Env) (args : List String) (e : Event)
    (he : e ∈ (main env args).trace) (hc : e.isCapture = true) :
    ∃ b tr, main env args = .cont tr 0 ∧ env.init b = true ∧
      tr.filter Event.isLifecycle =
        [b.initEvent true, .newCameraThread b.thread, .threadStart b.thread, .appExec,
          .threadJoin b.thread true, .deleteCameraThread b.thread] := by
  have hin : e ∈ (main env args).trace.filter Event.isCapture :=
    List.mem_filter.mpr ⟨he, hc⟩
  have hlog : ∀ e : Event, e.isLog = true → e.isCapture = false := by
    intro e h
    cases e <;> simp_all [Event.isLog, Event.isCapture]
  have hlogl : ∀ e : Event, e.isLog = true → e.isLifecycle = false :=
    fun e h => (isLog_quiet e h).2.1
  rcases main_cases env args with ⟨tr, hm, _, hl⟩ | ⟨hd, cfg, cls, msg, hp, hm⟩ |
      ⟨hd, cfg, b, hp, _, hm⟩ | ⟨hd, cfg, b, hp, hi, hm⟩
  · rw [hm, trace_halt, filter_log _ hlog tr hl] at hin
    simp at hin
  · rw [hm, trace_halt, filter_head _ hlog env args hd cfg hp] at hin
    simp [Event.isCapture] at hin
  · rw [hm, trace_halt, filter_head _ hlog env args hd cfg hp, List.filter_append,
      availTrace_filter _ (fun _ _ => rfl)] at hin
    cases b <;>
      simp [Event.isCapture, Backend.newEvent, Backend.initEvent, Backend.deleteEvent]
        at hin
  · refine ⟨b, _, hm, hi, ?_⟩
    rw [filter_head _ hlogl env args hd cfg hp, List.filter_append, List.filter_append,
      availTrace_filter _ (fun _ _ => rfl)]
    cases b <;>
      simp [Event.isLifecycle, Backend.newEvent, Backend.initEvent, Backend.thread,
        captureTrace]

/-- C9, with no argument: the USB camera is started. -/
theorem capture_lifecycle_order_witness :
    Event.threadStart (.ofCamera (.CameraVideo 0)) ∈ (main fullEnv []).trace ∧
      ∃ b tr, main fullEnv [] = .cont tr 0 ∧ fullEnv.init b = true ∧
        tr.filter Event.isLifecycle =
          [b.initEvent true, .newCameraThread b.thread, .threadStart b.thread, .appExec,
            .threadJoin b.thread true, .deleteCameraThread b.thread] :=
  ⟨by decide, capture_lifecycle_order fullEnv []
    (.threadStart (.ofCamera (.CameraVideo 0))) (by decide) rfl⟩

/-- C10: for every driver value in -1..6 the selection of the backend never
reaches `UFATAL`, and when it continues exactly one of `cameraUsb` and `camera`
is non-null, so that `cameraThread` is non-null after a successful `init()`; no
run of `main` performs `UFATAL` or dereferences a null `cameraThread`. -/
theorem resolution_total (env : Env) (driver device : Int) (args : List String)
    (h1 : -1 ≤ driver) (h6 : driver ≤ 6) :
    ((∀ e ∈ (resolve env driver device).trace, e.isFatal = false) ∧
      ∀ tr cameraUsb camera, resolve env driver device = .cont tr (cameraUsb, camera) →
        cameraUsb.isSome = !camera.isSome ∧
        ∀ tr' cameraThread, initAndWrap env (cameraUsb, camera) = .cont tr' cameraThread →
          cameraThread.isSome = true) ∧
    ((∀ e ∈ (main env args).trace, e.isFatal = false) ∧
      (main env args).outcome? ≠ some .nullDeref ∧
      (main env args).outcome? ≠ some .fatal) := by
  obtain ⟨hf, hx⟩ := resolve_in_range env driver device h1 h6
  refine ⟨⟨hf, fun tr cu c hr => ⟨hx tr cu c hr, fun tr' th hw =>
    initAndWrap_some env cu c (hx tr cu c hr) tr' th hw⟩⟩, ?_⟩
  have hlog : ∀ e : Event, e.isLog = true → e.isFatal = false :=
    fun e h => (isLog_quiet e h).2.2.2.2.2.2.1
  have hall : ∀ l : List Event, l.filter Event.isFatal = [] →
      ∀ e ∈ l, e.isFatal = false := by
    intro l hl e he
    simpa using List.filter_eq_nil_iff.mp hl e he
  rcases main_cases env args with ⟨tr, hm, _, hl⟩ | ⟨hd, cfg, cls, msg, hp, hm⟩ |
      ⟨hd, cfg, b, hp, _, hm⟩ | ⟨hd, cfg, b, hp, hi, hm⟩
  · rw [hm]
    exact ⟨fun e he => hlog e (hl e he), by simp [Res.outcome?], by simp [Res.outcome?]⟩
  · rw [hm]
    refine ⟨hall _ ?_, by simp [Res.outcome?], by simp [Res.outcome?]⟩
    rw [trace_halt, filter_head _ hlog env args hd cfg hp]
    simp [Event.isFatal]
  · rw [hm]
    refine ⟨hall _ ?_, by simp [Res.outcome?], by simp [Res.outcome?]⟩
    rw [trace_halt, filter_head _ hlog env args hd cfg hp, List.filter_append,
      availTrace_filter _ (fun _ _ => rfl)]
    cases b <;>
      simp [Event.isFatal, Backend.newEvent, Backend.initEvent, Backend.deleteEvent]
  · rw [hm]
    refine ⟨hall _ ?_, by simp [Res.outcome?], by simp [Res.outcome?]⟩
    rw [trace_cont, filter_head _ hlog env args hd cfg hp, List.filter_append,
      List.filter_append,
      availTrace_filter _ (fun _ _ => rfl)]
    cases b <;>
      simp [Event.isFatal, Backend.newEvent, Backend.initEvent, Backend.thread,
        captureTrace]

/-- C10, at driver 6 and on the arguments `--driver 6`. -/
theorem resolution_total_witness :
    ((-1 : Int) ≤ 6 ∧ (6 : Int) ≤ 6) ∧
    (((∀ e ∈ (resolve fullEnv 6 0).trace, e.isFatal = false) ∧
      ∀ tr cameraUsb camera, resolve fullEnv 6 0 = .cont tr (cameraUsb, camera) →
        cameraUsb.isSome = !camera.isSome ∧
        ∀ tr' cameraThread,
          initAndWrap fullEnv (cameraUsb, camera) = .cont tr' cameraThread →
            cameraThread.isSome = true) ∧
    ((∀ e ∈ (main fullEnv ["--driver", "6"]).trace, e.isFatal = false) ∧
      (main fullEnv ["--driver", "6"]).outcome? ≠ some .nullDeref ∧
      (main fullEnv ["--driver", "6"]).outcome? ≠ some .fatal)) :=
  ⟨⟨by decide, by decide⟩,
    resolution_total fullEnv 6 0 ["--driver", "6"] (by decide) (by decide)⟩


end Calibration
